import Mathlib

/-!
Shallow embedding of the JSON-RPC message router (`reference_server/message_router.py`)
and the chat handler (`reference_server/chat_handler.py`), with theorems settling the
specification claims about them.
-/

set_option linter.unusedVariables false

namespace RefServer

/-- JSON values, as produced by decoding a raw payload. Numbers are modelled as
rationals (JSON has a single number type; the costs computed by the chat handler
are decimal fractions). -/
inductive JVal : Type where
  | null : JVal
  | bool (b : Bool) : JVal
  | num (q : ℚ) : JVal
  | str (s : String) : JVal
  | arr (elems : List JVal) : JVal
  | obj (fields : List (String × JVal)) : JVal

/-- First-match lookup in an association list: the read side of a Python dict
(keys of a real dict are unique, so first match is the match). -/
def dictGet {α : Type} : List (String × α) → String → Option α
  | [], _ => none
  | (k, v) :: rest, k' => if k = k' then some v else dictGet rest k'

/-- Key-membership test on an association list (Python `k in d`). -/
def dictHas {α : Type} (l : List (String × α)) (k : String) : Bool :=
  (dictGet l k).isSome

/-- Python dict assignment `d[k] = v`: replaces the first binding of `k` in place,
or appends a new binding at the end. -/
def dictInsert {α : Type} : List (String × α) → String → α → List (String × α)
  | [], k, v => [(k, v)]
  | (k', v') :: rest, k, v =>
    if k' = k then (k, v) :: rest else (k', v') :: dictInsert rest k v

/-- Python `del d[k]` restricted to the deletions done by the session sweep:
drops every binding of `k`. -/
def dictErase {α : Type} (l : List (String × α)) (k : String) : List (String × α) :=
  l.filter (fun p => !(p.1 = k : Bool))

/-- Python `d.get(k)`: None both when the key is absent and when it holds JSON
null (both decode to Python None). `none` models Python None. -/
def pyGet (fields : List (String × JVal)) (k : String) : Option JVal :=
  match dictGet fields k with
  | none => none
  | some .null => none
  | some v => some v

/-- Python truthiness of a decoded JSON value. -/
def pyTruthy : JVal → Bool
  | .null => false
  | .bool b => b
  | .num q => decide (q ≠ 0)
  | .str s => decide (s ≠ "")
  | .arr xs => !xs.isEmpty
  | .obj fs => !fs.isEmpty

/-- Truthiness of a Python value that may be None. -/
def pyTruthyOpt : Option JVal → Bool
  | none => false
  | some v => pyTruthy v

/-! JSON-RPC 2.0 error codes (enum JsonRpcErrorCode in the source). -/

def PARSE_ERROR : ℚ := -32700

def INVALID_REQUEST : ℚ := -32600

def METHOD_NOT_FOUND : ℚ := -32601

def INVALID_PARAMS : ℚ := -32602

def INTERNAL_ERROR : ℚ := -32603

def SDK_UNAVAILABLE : ℚ := -32001

def OPERATION_CANCELLED : ℚ := -32002

/-- create_json_rpc_response: a successful JSON-RPC response. A Python None id
serializes to JSON null. -/
def create_json_rpc_response (result : JVal) (request_id : Option JVal) : JVal :=
  .obj [("jsonrpc", .str "2.0"), ("result", result), ("id", request_id.getD .null)]

/-- create_json_rpc_error: a JSON-RPC error response; the data field is added
only when present. -/
def create_json_rpc_error (code : ℚ) (message : String) (request_id : Option JVal)
    (data : Option JVal) : JVal :=
  let err : List (String × JVal) := [("code", .num code), ("message", .str message)]
  let err := match data with
    | some d => err ++ [("data", d)]
    | none => err
  .obj [("jsonrpc", .str "2.0"), ("error", .obj err), ("id", request_id.getD .null)]

/-- create_json_rpc_notification: a server-to-client notification; the params
field is added only when present. -/
def create_json_rpc_notification (method : String) (params : Option JVal) : JVal :=
  let n : List (String × JVal) := [("jsonrpc", .str "2.0"), ("method", .str method)]
  let n := match params with
    | some p => n ++ [("params", p)]
    | none => n
  .obj n

/-- The Python exceptions distinguished by the except ladders in the router. -/
inductive PyExn : Type where
  | typeError (msg : String)
  | valueError (msg : String)
  | runtimeError (msg : String)
  | otherError (msg : String)

/-- Observable outcome of awaiting a regular (unary) handler on given params. -/
inductive UnaryOutcome : Type where
  | returns (v : JVal)
  | raises (e : PyExn)

/-- A regular handler, modelled by its outcome as a function of the routed
params (which may be Python None when the request carried a null params field). -/
def UnaryHandler : Type := Option JVal → UnaryOutcome

/-- One observable step of an async-generator streaming handler: either a value
it yields (handlers yield dict chunks, modelled by their fields), or a call it
makes to the notifier callback the router passed in. -/
inductive StreamItem : Type where
  | yielded (chunk : List (String × JVal))
  | notified (method : String) (params : JVal)

/-- A complete run of a streaming handler: the items it produced in order, then
either normal completion (`none`) or an exception that escapes (`some e`). -/
structure StreamRun : Type where
  items : List StreamItem
  ending : Option PyExn

/-- A streaming handler, modelled by its run as a function of the routed params. -/
def StreamingHandler : Type := Option JVal → StreamRun

/-- MessageRouter state: the two registries, each a Python dict keyed by method
name (class MessageRouter, field handlers and field streaming_handlers). -/
structure MessageRouter : Type where
  handlers : List (String × UnaryHandler)
  streaming_handlers : List (String × StreamingHandler)

/-- register_handler: store a regular handler under the method name. -/
def register_handler (r : MessageRouter) (method : String) (h : UnaryHandler) :
    MessageRouter :=
  { r with handlers := dictInsert r.handlers method h }

/-- register_streaming_handler: store a streaming handler under the method name. -/
def register_streaming_handler (r : MessageRouter) (method : String)
    (h : StreamingHandler) : MessageRouter :=
  { r with streaming_handlers := dictInsert r.streaming_handlers method h }

/-- One write to the transport: via send_response or via send_notification. -/
inductive Out : Type where
  | resp (j : JVal)
  | notif (j : JVal)

/-- The except-clause ladder of _handle_regular and _handle_streaming (the two
ladders in the source are textually identical): TypeError and ValueError map to
INVALID_PARAMS, RuntimeError to SDK_UNAVAILABLE, anything else to INTERNAL_ERROR. -/
def exnResponse (e : PyExn) (request_id : Option JVal) : JVal :=
  match e with
  | .typeError m => create_json_rpc_error INVALID_PARAMS ("Invalid parameters: " ++ m) request_id none
  | .valueError m => create_json_rpc_error INVALID_PARAMS m request_id none
  | .runtimeError m => create_json_rpc_error SDK_UNAVAILABLE m request_id none
  | .otherError m => create_json_rpc_error INTERNAL_ERROR ("Internal error: " ++ m) request_id none

/-- _handle_regular: await the handler; for notifications a successful result is
discarded; otherwise emit the success response or the mapped error response.
(The `none` registry branch mirrors the KeyError a missing key would raise,
caught by the final except clause; route_message never reaches it.) -/
def handle_regular (r : MessageRouter) (method : String) (params : Option JVal)
    (request_id : Option JVal) (is_notification : Bool) : List Out :=
  match dictGet r.handlers method with
  | none => [.resp (create_json_rpc_error INTERNAL_ERROR "Internal error: KeyError" request_id none)]
  | some h =>
    match h params with
    | .returns v =>
      if is_notification then []
      else [.resp (create_json_rpc_response v request_id)]
    | .raises e => [.resp (exnResponse e request_id)]

/-- A chunk is terminal when it has a result or an error key. -/
def chunkIsTerminal (fields : List (String × JVal)) : Bool :=
  dictHas fields "result" || dictHas fields "error"

/-- How _handle_streaming turns one handler item into a transport write: a
terminal chunk becomes a response (with the id field set to the request id when
the request id is not None), a non-terminal chunk is forwarded as a raw
notification, and a notifier-callback call is wrapped by
create_json_rpc_notification. -/
def streamItemOut (request_id : Option JVal) : StreamItem → Out
  | .yielded fields =>
    if chunkIsTerminal fields then
      match request_id with
      | some rid => .resp (.obj (dictInsert fields "id" rid))
      | none => .resp (.obj fields)
    else .notif (.obj fields)
  | .notified m p => .notif (create_json_rpc_notification m (some p))

/-- _handle_streaming: drain the generator, translating each item; when the
generator escapes with an exception, the except ladder emits one error
response; when it completes normally nothing more is emitted. -/
def handle_streaming (r : MessageRouter) (method : String) (params : Option JVal)
    (request_id : Option JVal) : List Out :=
  match dictGet r.streaming_handlers method with
  | none => [.resp (create_json_rpc_error INTERNAL_ERROR "Internal error: KeyError" request_id none)]
  | some h =>
    let run := h params
    run.items.map (streamItemOut request_id) ++
      (match run.ending with
       | none => []
       | some e => [.resp (exnResponse e request_id)])

/-- Inbound raw frame after json.loads: either the decode raised (undecodable)
or it produced a JSON value. -/
inductive RawIn : Type where
  | undecodable (errMsg : String)
  | decoded (data : JVal)

/-- Python data.get with a fresh empty-dict default: an absent key yields the
default, an explicit null yields Python None, otherwise the value itself. -/
def routedParams (fields : List (String × JVal)) : Option JVal :=
  match dictGet fields "params" with
  | none => some (.obj [])
  | some .null => none
  | some v => some v

/-- How a Python value prints inside the method-not-found message. -/
def pyStrOf : Option JVal → String
  | none => "None"
  | some .null => "None"
  | some (.bool true) => "True"
  | some (.bool false) => "False"
  | some (.num q) => toString q
  | some (.str s) => s
  | some (.arr _) => "[...]"
  | some (.obj _) => "\x7b...\x7d"

/-- The version check data.get on jsonrpc equals the string 2.0. -/
def isVersion2 : Option JVal → Bool
  | some (.str s) => decide (s = "2.0")
  | _ => false

/-- route_message: parse, validate the envelope, classify, resolve (streaming
registry first, then regular), dispatch, or report method-not-found. Returns
the ordered list of transport writes. A truthy non-string method value is never
a registry key: hashable ones fall through to method-not-found, unhashable ones
(arrays, objects) raise TypeError inside the containment test, which the outer
except clause turns into an internal error keyed by data.get on id. -/
def route_message (r : MessageRouter) (input : RawIn) : List Out :=
  match input with
  | .undecodable e =>
    [.resp (create_json_rpc_error PARSE_ERROR ("Invalid JSON: " ++ e) none
      (some (.obj [("detail", .str e)])))]
  | .decoded data =>
    match data with
    | .obj fields =>
      if !isVersion2 (dictGet fields "jsonrpc") then
        [.resp (create_json_rpc_error INVALID_REQUEST "jsonrpc must be \x272.0\x27"
          (pyGet fields "id") none)]
      else
        let method := pyGet fields "method"
        if !pyTruthyOpt method then
          [.resp (create_json_rpc_error INVALID_REQUEST "method is required"
            (pyGet fields "id") none)]
        else
          let request_id := pyGet fields "id"
          let params := routedParams fields
          let is_notification := request_id.isNone
          match method with
          | some (.arr _) =>
            [.resp (create_json_rpc_error INTERNAL_ERROR
              "Internal server error: unhashable type" (pyGet fields "id") none)]
          | some (.obj _) =>
            [.resp (create_json_rpc_error INTERNAL_ERROR
              "Internal server error: unhashable type" (pyGet fields "id") none)]
          | some (.str m) =>
            if dictHas r.streaming_handlers m then
              handle_streaming r m params request_id
            else if dictHas r.handlers m then
              handle_regular r m params request_id is_notification
            else
              [.resp (create_json_rpc_error METHOD_NOT_FOUND
                ("Method \x27" ++ m ++ "\x27 not found") request_id none)]
          | _ =>
            [.resp (create_json_rpc_error METHOD_NOT_FOUND
              ("Method \x27" ++ pyStrOf method ++ "\x27 not found") request_id none)]
    | _ =>
      [.resp (create_json_rpc_error INVALID_REQUEST "Request must be an object" none none)]

/-- Number of writes on the response channel (replies). -/
def countResp (outs : List Out) : Nat :=
  (outs.filter (fun o => match o with | .resp _ => true | .notif _ => false)).length

/-! ### Chat handler (`chat_handler.py`) -/

/-- One entry of a session message list: a role tag and its content. -/
structure ChatTurn : Type where
  role : String
  content : String
deriving DecidableEq, Repr

/-- class ChatSession: a single conversation. `created_at` is the creation
timestamp in seconds (datetime.utcnow modelled as an integer clock). -/
structure ChatSession : Type where
  conversation_id : String
  messages : List ChatTurn
  is_active : Bool
  created_at : Int
deriving DecidableEq, Repr

/-- The mutable state of class ChatHandler: the session dict, the tracked
current conversation id (None initially), and the SDK availability probe
result. -/
structure ChatHandlerState : Type where
  sessions : List (String × ChatSession)
  current_conversation_id : Option String
  sdk_available : Bool
deriving DecidableEq, Repr

/-- ChatCancelResult dataclass. -/
structure ChatCancelResult : Type where
  cancelled : Bool
  conversation_id : Option String
deriving DecidableEq, Repr

/-- One event of the upstream streaming response consumed by handle_send.
Events whose branch bodies do nothing (content_block_start, deltas that are not
text deltas, deltas without usage, unknown types) are collapsed into the no-op
constructors. -/
inductive SseEvent : Type where
  | content_block_start : SseEvent
  | content_block_delta (text : String) : SseEvent
  | message_delta (input_tokens output_tokens : Nat) : SseEvent
  | message_start (input_tokens output_tokens : Nat) : SseEvent
  | other : SseEvent

/-- How the iteration over the upstream response ends: normal exhaustion,
asyncio.CancelledError observed at an await, or any other exception. -/
inductive UpstreamEnd : Type where
  | completed : UpstreamEnd
  | cancelled : UpstreamEnd
  | failed (msg : String) : UpstreamEnd

/-- A run of the upstream generation call: the events delivered before the end
condition, and the end condition itself. A failure of the create call itself is
the empty-events case of `failed`. -/
structure UpstreamRun : Type where
  events : List SseEvent
  ending : UpstreamEnd

/-- One observable action of the handle_send generator, in order: a call to the
notifier callback, or a yielded chunk (a dict, modelled by its fields). -/
inductive SendItem : Type where
  | notify (method : String) (params : JVal) : SendItem
  | yielded (chunk : List (String × JVal)) : SendItem

/-- How the handle_send generator terminates: normal completion, the two guard
exceptions, or an upstream exception re-raised after the error notification. -/
inductive SendOutcome : Type where
  | completed : SendOutcome
  | valueError (msg : String) : SendOutcome
  | runtimeError (msg : String) : SendOutcome
  | reraised (msg : String) : SendOutcome

/-- Python str.strip: drop leading and trailing ASCII whitespace. Defined over
the character list so that it evaluates by kernel reduction. -/
def pyStrip (s : String) : String :=
  ⟨((s.data.dropWhile Char.isWhitespace).reverse.dropWhile Char.isWhitespace).reverse⟩

/-- Rounding to six decimal places (Python round(x, 6)). -/
def round6 (q : ℚ) : ℚ := (round (q * 1000000) : ℚ) / 1000000

/-- The conversation id resolved at entry: the tracked current id when it is
truthy (a non-empty string), otherwise the fresh uuid4 value. -/
def resolvedCid (st : ChatHandlerState) (freshId : String) : String :=
  match st.current_conversation_id with
  | some c => if c = "" then freshId else c
  | none => freshId

/-- Accumulator of the event loop inside handle_send: the notifier calls made so
far, the concatenated response text, and the latest usage counters. -/
structure StreamAcc : Type where
  items : List SendItem
  text : String
  input_tokens : Nat
  output_tokens : Nat

/-- The chunk notification sent for one text delta. -/
def chunkNotifPayload (cid : String) (text : String) (now : Int) : JVal :=
  .obj [("conversation_id", .str cid), ("content", .str text),
        ("is_final", .bool false), ("timestamp", .str (toString now))]

/-- One iteration of the async-for over upstream events: a text delta extends
the response text and sends a chunk notification; message_delta and
message_start overwrite both usage counters; the other events do nothing. -/
def consumeEvent (cid : String) (now : Int) (acc : StreamAcc) : SseEvent → StreamAcc
  | .content_block_start => acc
  | .content_block_delta t =>
    { acc with
      text := acc.text ++ t,
      items := acc.items ++ [.notify "chat.response.chunk" (chunkNotifPayload cid t now)] }
  | .message_delta i o => { acc with input_tokens := i, output_tokens := o }
  | .message_start i o => { acc with input_tokens := i, output_tokens := o }
  | .other => acc

/-- The whole event loop, from the zero-initialised counters. -/
def consumeEvents (cid : String) (now : Int) (events : List SseEvent) : StreamAcc :=
  events.foldl (consumeEvent cid now) { items := [], text := "", input_tokens := 0, output_tokens := 0 }

/-- The usage notification payload sent on normal completion. -/
def usagePayload (cid : String) (inTok outTok : Nat) (cost : ℚ) (now : Int) : JVal :=
  .obj [("conversation_id", .str cid), ("input_tokens", .num inTok),
        ("output_tokens", .num outTok), ("total_tokens", .num (inTok + outTok)),
        ("total_cost_usd", .num cost), ("timestamp", .str (toString now))]

/-- The final result chunk yielded by handle_send. -/
def sendResultChunk (cid : String) (status : String) (cost : ℚ) (now : Int) :
    List (String × JVal) :=
  [("result", .obj [("conversation_id", .str cid), ("status", .str status),
                    ("total_cost_usd", .num cost), ("timestamp", .str (toString now))])]

/-- handle_send (the chat.send streaming handler), as a function of the message
parameter (params.get on message: `none` models an absent key), the fresh uuid4
string, the upstream run, and the clock. It returns the ordered trace of
notifier calls and yields, how the generator terminated, and the new handler
state. The guards raise before any state is touched; past them, the session is
created or fetched, marked active, the user turn is appended, the upstream
events are consumed, and the branch for the end condition runs; the finally
block clears the active flag on every path. -/
def handle_send (st : ChatHandlerState) (msgParam : Option String) (freshId : String)
    (upstream : UpstreamRun) (now : Int) :
    List SendItem × SendOutcome × ChatHandlerState :=
  let message := pyStrip (msgParam.getD "")
  if message = "" then
    ([], .valueError "Message cannot be empty", st)
  else if !st.sdk_available then
    ([], .runtimeError "Anthropic SDK not available. Install with: pip install anthropic", st)
  else
    let conversation_id := resolvedCid st freshId
    let st1 := { st with current_conversation_id := some conversation_id }
    let session0 :=
      match dictGet st1.sessions conversation_id with
      | some s => s
      | none =>
        { conversation_id := conversation_id, messages := [], is_active := false,
          created_at := now }
    let session1 :=
      { session0 with
        is_active := true,
        messages := session0.messages ++ [(⟨"user", message⟩ : ChatTurn)] }
    let acc := consumeEvents conversation_id now upstream.events
    match upstream.ending with
    | .completed =>
      let total_cost_usd :=
        round6 ((acc.input_tokens / 1000000 : ℚ) * 3 + (acc.output_tokens / 1000000 : ℚ) * 15)
      let session2 :=
        { session1 with
          messages := session1.messages ++ [(⟨"assistant", acc.text⟩ : ChatTurn)] }
      let items :=
        acc.items ++
        [.notify "chat.usage"
            (usagePayload conversation_id acc.input_tokens acc.output_tokens total_cost_usd now),
         .yielded (sendResultChunk conversation_id "complete" total_cost_usd now)]
      let sessionF := { session2 with is_active := false }
      (items, .completed,
        { st1 with sessions := dictInsert st1.sessions conversation_id sessionF })
    | .cancelled =>
      let items :=
        acc.items ++ [.yielded (sendResultChunk conversation_id "cancelled" 0 now)]
      let sessionF := { session1 with is_active := false }
      (items, .completed,
        { st1 with sessions := dictInsert st1.sessions conversation_id sessionF })
    | .failed msg =>
      let items :=
        acc.items ++
        [.notify "chat.error"
            (.obj [("code", .str "CHAT_ERROR"), ("message", .str msg),
                   ("timestamp", .str (toString now))])]
      let sessionF := { session1 with is_active := false }
      (items, .reraised msg,
        { st1 with sessions := dictInsert st1.sessions conversation_id sessionF })

/-- handle_cancel: when the tracked current conversation id is falsy (None, or
the empty string under Python truthiness) report not-cancelled; otherwise clear
the active flag of the tracked session when it exists in the store and report
cancelled with the tracked id. The tracked id itself is never cleared. -/
def handle_cancel (st : ChatHandlerState) : ChatCancelResult × ChatHandlerState :=
  match st.current_conversation_id with
  | none => ({ cancelled := false, conversation_id := none }, st)
  | some cid =>
    if cid = "" then
      ({ cancelled := false, conversation_id := none }, st)
    else
      let sessions :=
        match dictGet st.sessions cid with
        | some s => dictInsert st.sessions cid { s with is_active := false }
        | none => st.sessions
      ({ cancelled := true, conversation_id := some cid }, { st with sessions := sessions })

/-- cleanup_old_sessions: delete every session strictly older than the cutoff
whose active flag is false. The Python function is annotated to return None and
has no return statement, so its value at the call site is None; the second
component records that returned value (`none` of an optional count). -/
def cleanup_old_sessions (st : ChatHandlerState) (now : Int) (max_age_hours : Int) :
    ChatHandlerState × Option Nat :=
  let cutoff := now - max_age_hours * 3600
  ({ st with
     sessions := st.sessions.filter
       (fun p => !(decide (p.2.created_at < cutoff) && !p.2.is_active)) },
   none)

/-- Bridge from a handle_send run to the observable StreamRun the router
consumes: notifier calls and yields map one to one, and an exception escaping
the generator after the chat.error notification reaches the router as a generic
exception. -/
def chatSendRun (st : ChatHandlerState) (msgParam : Option String) (freshId : String)
    (upstream : UpstreamRun) (now : Int) : StreamRun :=
  let r := handle_send st msgParam freshId upstream now
  { items := r.1.map (fun i =>
      match i with
      | .notify m p => .notified m p
      | .yielded c => .yielded c),
    ending :=
      match r.2.1 with
      | .completed => none
      | .valueError m => some (.valueError m)
      | .runtimeError m => some (.runtimeError m)
      | .reraised m => some (.otherError m) }

/-- The message parameter extracted from routed params the way handle_send reads
it: params.get on message with an empty-string default. Payloads whose message
value is not a string are outside this model (they would fail on strip with an
AttributeError). -/
def getMessageParam : Option JVal → Option String
  | some (.obj fs) =>
    match dictGet fs "message" with
    | some (.str s) => some s
    | _ => none
  | _ => none

/-- The chat.send streaming handler as the router sees it, for a fixed handler
state, fresh id, upstream run and clock. -/
def chatSendHandler (st : ChatHandlerState) (freshId : String) (upstream : UpstreamRun)
    (now : Int) : StreamingHandler :=
  fun p => chatSendRun st (getMessageParam p) freshId upstream now

/-! ### Auxiliary observers -/

/-- Whether a JSON value is an object. -/
def jIsObj : JVal → Bool
  | .obj _ => true
  | _ => false

/-- Field read on a JSON object value. -/
def jGet : JVal → String → Option JVal
  | .obj fields, k => dictGet fields k
  | _, _ => none

/-- Number of terminal chunks among the items of a streaming run. -/
def countTerminal (items : List StreamItem) : Nat :=
  (items.filter (fun i => match i with
    | .yielded c => chunkIsTerminal c
    | .notified _ _ => false)).length

/-! ### Association list lemmas -/

theorem dictGet_dictInsert_self {α : Type} (l : List (String × α)) (k : String) (v : α) :
    dictGet (dictInsert l k v) k = some v := by
  induction l with
  | nil => simp [dictInsert, dictGet]
  | cons p rest ih =>
    obtain ⟨k', v'⟩ := p
    by_cases h : k' = k <;> simp [dictInsert, dictGet, h, ih]

theorem dictGet_dictInsert_ne {α : Type} (l : List (String × α)) (k k' : String) (v : α)
    (h : k ≠ k') : dictGet (dictInsert l k v) k' = dictGet l k' := by
  induction l with
  | nil => simp [dictInsert, dictGet, h]
  | cons p rest ih =>
    obtain ⟨k₀, v₀⟩ := p
    by_cases h₀ : k₀ = k
    · subst h₀
      simp [dictInsert, dictGet, h]
    · simp only [dictInsert, h₀, if_false]
      by_cases h₁ : k₀ = k' <;> simp [dictGet, h₁, ih]

theorem dictHas_dictInsert_self {α : Type} (l : List (String × α)) (k : String) (v : α) :
    dictHas (dictInsert l k v) k = true := by
  simp [dictHas, dictGet_dictInsert_self]

/-! ### Claim C4 -/

/-- C4 is refuted by this concrete run: after registering a streaming handler
and then a regular handler under the same name, the name is present in both
registries at once, and dispatch uses the streaming handler although the
regular one was registered last. -/
theorem c4_counterexample :
    dictHas (register_handler
      (register_streaming_handler { handlers := [], streaming_handlers := [] } "op"
        (fun _ => { items := [StreamItem.yielded [("result", JVal.str "from-streaming")]],
                    ending := none }))
      "op" (fun _ => .returns (.str "from-unary"))).handlers "op" = true ∧
    dictHas (register_handler
      (register_streaming_handler { handlers := [], streaming_handlers := [] } "op"
        (fun _ => { items := [StreamItem.yielded [("result", JVal.str "from-streaming")]],
                    ending := none }))
      "op" (fun _ => .returns (.str "from-unary"))).streaming_handlers "op" = true ∧
    route_message (register_handler
      (register_streaming_handler { handlers := [], streaming_handlers := [] } "op"
        (fun _ => { items := [StreamItem.yielded [("result", JVal.str "from-streaming")]],
                    ending := none }))
      "op" (fun _ => .returns (.str "from-unary")))
      (.decoded (.obj [("jsonrpc", .str "2.0"), ("method", .str "op"), ("id", .num 1)]))
      = [.resp (.obj [("result", JVal.str "from-streaming"), ("id", JVal.num 1)])] :=
  ⟨rfl, rfl, rfl⟩

/-- C4 (amended): within one registry re-registration leaves exactly the latest
handler stored; a name may be present in both registries simultaneously, and
dispatch of a message naming it is then decided by the streaming registry: a
regular registration made after a streaming one does not change the routed
output. -/
theorem c4_amended (r : MessageRouter) (m : String) (u1 u2 : UnaryHandler)
    (s1 s2 : StreamingHandler) (rid : ℚ) :
    dictGet (register_handler (register_handler r m u1) m u2).handlers m = some u2 ∧
    dictGet (register_streaming_handler (register_streaming_handler r m s1) m s2).streaming_handlers m
      = some s2 ∧
    route_message (register_handler (register_streaming_handler r m s2) m u1)
        (.decoded (.obj [("jsonrpc", .str "2.0"), ("method", .str m), ("id", .num rid)]))
      = route_message (register_streaming_handler r m s2)
        (.decoded (.obj [("jsonrpc", .str "2.0"), ("method", .str m), ("id", .num rid)])) := by
  refine ⟨?_, ?_, ?_⟩
  · simp [register_handler, dictGet_dictInsert_self]
  · simp [register_streaming_handler, dictGet_dictInsert_self]
  · by_cases hm : m = ""
    · subst hm
      simp [route_message, dictGet, pyGet, pyTruthyOpt, pyTruthy, isVersion2]
    · simp [route_message, dictGet, pyGet, pyTruthyOpt, pyTruthy, isVersion2, hm,
        register_handler, register_streaming_handler, handle_streaming,
        dictHas_dictInsert_self, dictGet_dictInsert_self]

/-! ### Claim C5 -/

/-- C5 is refuted by this concrete run: the scalar 5 decodes as valid JSON but
is not an object, and routing it emits the INVALID_REQUEST error (code -32600),
which is a different code from PARSE_ERROR (-32700), the code the claim
demands. -/
theorem c5_counterexample :
    route_message { handlers := [], streaming_handlers := [] } (.decoded (.num 5))
      = [.resp (create_json_rpc_error INVALID_REQUEST "Request must be an object" none none)] ∧
    INVALID_REQUEST ≠ PARSE_ERROR :=
  ⟨rfl, by decide⟩

/-- C5 (amended): for every raw input that decodes as valid JSON but is not an
object (a scalar or an array), routing emits exactly one reply: the
INVALID_REQUEST error (the InvalidEnvelope kind, code -32600), with message
"Request must be an object" and a null correlation id. -/
theorem c5_amended (r : MessageRouter) (v : JVal) (h : jIsObj v = false) :
    route_message r (.decoded v)
      = [.resp (create_json_rpc_error INVALID_REQUEST "Request must be an object" none none)] := by
  cases v <;> simp [jIsObj] at h ⊢ <;> rfl

/-- Witness for the amended C5 at the concrete scalar input 5. -/
theorem c5_amended_witness :
    jIsObj (JVal.num 5) = false ∧
    route_message { handlers := [], streaming_handlers := [] } (.decoded (.num 5))
      = [.resp (create_json_rpc_error INVALID_REQUEST "Request must be an object" none none)] :=
  ⟨rfl, c5_amended { handlers := [], streaming_handlers := [] } (.num 5) rfl⟩

/-! ### Router dispatch lemmas -/

/-- The canonical inbound frame fields used by the request and notification
theorems: protocol version, method name, params value, and optionally an id. -/
def reqFields (m : String) (pv : JVal) (rid : Option JVal) : List (String × JVal) :=
  match rid with
  | some i => [("jsonrpc", .str "2.0"), ("method", .str m), ("params", pv), ("id", i)]
  | none => [("jsonrpc", .str "2.0"), ("method", .str m), ("params", pv)]

theorem pyGet_reqFields_id (m : String) (pv rid : JVal) (hid : rid ≠ .null) :
    pyGet (reqFields m pv (some rid)) "id" = some rid := by
  cases rid
  case null => exact absurd rfl hid
  all_goals rfl

theorem countResp_append (a b : List Out) :
    countResp (a ++ b) = countResp a + countResp b := by
  simp [countResp, List.filter_append]

theorem countResp_map_streamItemOut (rid : Option JVal) (items : List StreamItem) :
    countResp (items.map (streamItemOut rid)) = countTerminal items := by
  induction items with
  | nil => rfl
  | cons i rest ih =>
    cases i with
    | yielded c =>
      by_cases ht : chunkIsTerminal c
      · cases rid <;>
          simp [streamItemOut, countResp, countTerminal, ht, List.filter_cons] at ih ⊢ <;>
          omega
      · cases rid <;>
          simp [streamItemOut, countResp, countTerminal, ht, List.filter_cons] at ih ⊢ <;>
          omega
    | notified nm np =>
      simp [streamItemOut, countResp, countTerminal, List.filter_cons] at ih ⊢
      omega

theorem jGet_create_error_id (code : ℚ) (msg : String) (rid : JVal) (d : Option JVal) :
    jGet (create_json_rpc_error code msg (some rid) d) "id" = some rid := by
  cases d <;> rfl

theorem jGet_create_response_id (v rid : JVal) :
    jGet (create_json_rpc_response v (some rid)) "id" = some rid := rfl

theorem jGet_exnResponse_id (e : PyExn) (rid : JVal) :
    jGet (exnResponse e (some rid)) "id" = some rid := by
  cases e <;> rfl

theorem mem_map_streamItemOut_resp_id (rid : JVal) (items : List StreamItem) (v : JVal)
    (hmem : Out.resp v ∈ items.map (streamItemOut (some rid))) :
    jGet v "id" = some rid := by
  induction items with
  | nil => simp at hmem
  | cons i rest ih =>
    rw [List.map_cons, List.mem_cons] at hmem
    rcases hmem with hm | hm
    · cases i with
      | yielded c =>
        by_cases ht : chunkIsTerminal c
        · simp only [streamItemOut, ht, if_true] at hm
          cases hm
          exact dictGet_dictInsert_self c "id" rid
        · simp [streamItemOut, ht] at hm
      | notified nm np => simp [streamItemOut] at hm
    · exact ih hm

theorem countResp_handle_streaming (r : MessageRouter) (m : String) (params : Option JVal)
    (request_id : Option JVal) (h : StreamingHandler)
    (hs : dictGet r.streaming_handlers m = some h) :
    countResp (handle_streaming r m params request_id)
      = countTerminal (h params).items + (if (h params).ending.isSome then 1 else 0) := by
  simp only [handle_streaming, hs]
  rw [countResp_append, countResp_map_streamItemOut]
  cases hend : (h params).ending <;> simp [countResp]

theorem handle_streaming_resp_id (r : MessageRouter) (m : String) (params : Option JVal)
    (rid : JVal) (h : StreamingHandler) (v : JVal)
    (hs : dictGet r.streaming_handlers m = some h)
    (hmem : Out.resp v ∈ handle_streaming r m params (some rid)) :
    jGet v "id" = some rid := by
  simp only [handle_streaming, hs, List.mem_append] at hmem
  rcases hmem with hm | hm
  · exact mem_map_streamItemOut_resp_id rid _ v hm
  · cases hend : (h params).ending with
    | none => rw [hend] at hm; simp at hm
    | some e =>
      rw [hend] at hm
      simp only [List.mem_singleton] at hm
      cases hm
      exact jGet_exnResponse_id e rid

/-- How route_message dispatches a well-formed request (version 2.0, truthy
string method, non-null id): streaming registry first, then the regular one,
then method-not-found. -/
theorem route_message_request (r : MessageRouter) (m : String) (pv rid : JVal)
    (hm : m ≠ "") (hid : rid ≠ JVal.null) :
    route_message r (.decoded (.obj (reqFields m pv (some rid))))
      = (if dictHas r.streaming_handlers m then
           handle_streaming r m (routedParams (reqFields m pv (some rid))) (some rid)
         else if dictHas r.handlers m then
           handle_regular r m (routedParams (reqFields m pv (some rid))) (some rid) false
         else
           [.resp (create_json_rpc_error METHOD_NOT_FOUND
             ("Method \x27" ++ m ++ "\x27 not found") (some rid) none)]) := by
  cases rid
  case null => exact absurd rfl hid
  all_goals
    simp [route_message, reqFields, pyGet, dictGet, isVersion2, pyTruthyOpt, pyTruthy, hm,
      routedParams]

/-- How route_message dispatches a well-formed notification (version 2.0,
truthy string method, no id field). -/
theorem route_message_notification (r : MessageRouter) (m : String) (pv : JVal)
    (hm : m ≠ "") :
    route_message r (.decoded (.obj (reqFields m pv none)))
      = (if dictHas r.streaming_handlers m then
           handle_streaming r m (routedParams (reqFields m pv none)) none
         else if dictHas r.handlers m then
           handle_regular r m (routedParams (reqFields m pv none)) none true
         else
           [.resp (create_json_rpc_error METHOD_NOT_FOUND
             ("Method \x27" ++ m ++ "\x27 not found") none none)]) := by
  simp [route_message, reqFields, pyGet, dictGet, isVersion2, pyTruthyOpt, pyTruthy, hm,
    routedParams]

/-! ### Claim C1 -/

/-- C1 is refuted by this concrete run: a well-formed request with correlation
id 7 is dispatched to a streaming handler whose sequence ends without any
terminal chunk, and zero replies are written to the response channel, where the
claim demands exactly one. -/
theorem c1_counterexample :
    route_message (MessageRouter.mk []
        [("stream.empty", fun _ => { items := [], ending := none })])
      (.decoded (.obj [("jsonrpc", .str "2.0"), ("method", .str "stream.empty"),
        ("id", .num 7)]))
      = [] ∧
    countResp (route_message (MessageRouter.mk []
        [("stream.empty", fun _ => { items := [], ending := none })])
      (.decoded (.obj [("jsonrpc", .str "2.0"), ("method", .str "stream.empty"),
        ("id", .num 7)]))) = 0 :=
  ⟨rfl, rfl⟩

/-- C1 (amended): for a well-formed request with a non-null correlation id, the
router emits exactly one terminal reply when the method resolves to a regular
handler (whatever its outcome) or to no handler at all; when it resolves to a
streaming handler the number of replies equals the number of terminal chunks the
handler yields, plus one when it raises — so exactly one reply only when the
streaming handler yields exactly one terminal chunk and completes, or raises
having yielded none. Every reply carries the request id. -/
theorem c1_amended (r : MessageRouter) (m : String) (pv rid : JVal)
    (hm : m ≠ "") (hid : rid ≠ JVal.null) :
    (∀ h, dictGet r.streaming_handlers m = some h →
      countResp (route_message r (.decoded (.obj (reqFields m pv (some rid)))))
        = countTerminal (h (routedParams (reqFields m pv (some rid)))).items
          + (if (h (routedParams (reqFields m pv (some rid)))).ending.isSome then 1 else 0)) ∧
    (dictGet r.streaming_handlers m = none →
      countResp (route_message r (.decoded (.obj (reqFields m pv (some rid))))) = 1) ∧
    (∀ v, Out.resp v ∈ route_message r (.decoded (.obj (reqFields m pv (some rid)))) →
      jGet v "id" = some rid) := by
  rw [route_message_request r m pv rid hm hid]
  refine ⟨?_, ?_, ?_⟩
  · intro h hs
    rw [if_pos (by simp [dictHas, hs])]
    exact countResp_handle_streaming r m _ (some rid) h hs
  · intro hs
    rw [if_neg (by simp [dictHas, hs])]
    cases hreg : dictGet r.handlers m with
    | none =>
      rw [if_neg (by simp [dictHas, hreg])]
      rfl
    | some h =>
      rw [if_pos (by simp [dictHas, hreg])]
      cases hb : h (routedParams (reqFields m pv (some rid))) with
      | returns v => simp [handle_regular, hreg, hb, countResp]
      | raises e => simp [handle_regular, hreg, hb, countResp]
  · intro v hv
    by_cases hsh : dictHas r.streaming_handlers m
    · rw [if_pos hsh] at hv
      rcases Option.isSome_iff_exists.mp (by simpa [dictHas] using hsh) with ⟨h, hs⟩
      exact handle_streaming_resp_id r m _ rid h v hs hv
    · rw [if_neg hsh] at hv
      by_cases hrh : dictHas r.handlers m
      · rw [if_pos hrh] at hv
        rcases Option.isSome_iff_exists.mp (by simpa [dictHas] using hrh) with ⟨h, hreg⟩
        simp only [handle_regular, hreg] at hv
        cases hb : h (routedParams (reqFields m pv (some rid))) with
        | returns w =>
          rw [hb] at hv
          simp only [if_neg (by simp : ¬ (false = true)), List.mem_singleton] at hv
          cases hv
          exact jGet_create_response_id w rid
        | raises e =>
          rw [hb] at hv
          simp only [List.mem_singleton] at hv
          cases hv
          exact jGet_exnResponse_id e rid
      · rw [if_neg hrh] at hv
        simp only [List.mem_singleton] at hv
        cases hv
        exact jGet_create_error_id METHOD_NOT_FOUND _ rid none

/-- Witness for the amended C1: a unary echo handler registered under
method m, request id 3; the router emits exactly one reply and it carries id 3. -/
theorem c1_amended_witness :
    ("m" ≠ "") ∧ (JVal.num 3 ≠ JVal.null) ∧
    (dictGet (MessageRouter.mk [("m", fun p => .returns (.str "ok"))] []).streaming_handlers "m"
        = none →
      countResp (route_message (MessageRouter.mk [("m", fun p => .returns (.str "ok"))] [])
        (.decoded (.obj (reqFields "m" (.obj []) (some (.num 3)))))) = 1) :=
  ⟨by decide, fun h => JVal.noConfusion h,
    (c1_amended (MessageRouter.mk [("m", fun p => .returns (.str "ok"))] [])
      "m" (.obj []) (.num 3) (by decide) (fun h => JVal.noConfusion h)).2.1⟩

/-! ### Claim C2 -/

/-- C2 is refuted by this concrete run: a notification (no id) naming an
unregistered operation receives a MethodNotFound error reply with a null id,
where the claim demands that no reply of any kind be emitted. -/
theorem c2_counterexample :
    route_message { handlers := [], streaming_handlers := [] }
      (.decoded (.obj [("jsonrpc", .str "2.0"), ("method", .str "nope")]))
      = [.resp (create_json_rpc_error METHOD_NOT_FOUND "Method \x27nope\x27 not found"
          none none)] ∧
    countResp (route_message { handlers := [], streaming_handlers := [] }
      (.decoded (.obj [("jsonrpc", .str "2.0"), ("method", .str "nope")]))) = 1 :=
  ⟨rfl, rfl⟩

/-- C2 (amended): a notification routed to a registered regular handler that
succeeds emits no reply and its return value is discarded; but when the regular
handler raises, the router still emits the mapped error reply (with a null id),
and when the operation name is unregistered it still emits a MethodNotFound
error reply (with a null id). -/
theorem c2_amended (r : MessageRouter) (m : String) (pv : JVal) (hm : m ≠ "") :
    (∀ h v, dictGet r.streaming_handlers m = none → dictGet r.handlers m = some h →
      h (routedParams (reqFields m pv none)) = .returns v →
      route_message r (.decoded (.obj (reqFields m pv none))) = []) ∧
    (∀ h e, dictGet r.streaming_handlers m = none → dictGet r.handlers m = some h →
      h (routedParams (reqFields m pv none)) = .raises e →
      route_message r (.decoded (.obj (reqFields m pv none)))
        = [.resp (exnResponse e none)]) ∧
    (dictGet r.streaming_handlers m = none → dictGet r.handlers m = none →
      route_message r (.decoded (.obj (reqFields m pv none)))
        = [.resp (create_json_rpc_error METHOD_NOT_FOUND
            ("Method \x27" ++ m ++ "\x27 not found") none none)]) := by
  rw [route_message_notification r m pv hm]
  refine ⟨?_, ?_, ?_⟩
  · intro h v hs hreg hb
    rw [if_neg (by simp [dictHas, hs]), if_pos (by simp [dictHas, hreg])]
    simp [handle_regular, hreg, hb]
  · intro h e hs hreg hb
    rw [if_neg (by simp [dictHas, hs]), if_pos (by simp [dictHas, hreg])]
    simp [handle_regular, hreg, hb]
  · intro hs hreg
    rw [if_neg (by simp [dictHas, hs]), if_neg (by simp [dictHas, hreg])]

/-- Witness for the amended C2: a succeeding echo handler under method m and a
notification frame; the routed output is empty. -/
theorem c2_amended_witness :
    ("m" ≠ "") ∧
    route_message (MessageRouter.mk [("m", fun p => .returns (.str "ok"))] [])
      (.decoded (.obj (reqFields "m" (.obj []) none))) = [] :=
  ⟨by decide,
    (c2_amended (MessageRouter.mk [("m", fun p => .returns (.str "ok"))] [])
      "m" (.obj []) (by decide)).1 (fun p => .returns (.str "ok")) (.str "ok") rfl rfl rfl⟩

/-! ### Claim C3 -/

/-- C3 is refuted by this concrete run: a streaming handler whose sequence ends
without any terminal chunk; the router emits nothing at all — in particular it
does not synthesize the InternalError reply the claim demands. -/
theorem c3_counterexample :
    route_message (MessageRouter.mk []
        [("chat.stream", fun _ => { items := [], ending := none })])
      (.decoded (.obj [("jsonrpc", .str "2.0"), ("method", .str "chat.stream"),
        ("id", .num 9)]))
      = [] :=
  rfl

/-- C3 (amended): when a streaming dispatch completes without the handler ever
yielding a terminal chunk (and without raising), the router emits no reply at
all: it does not synthesize an InternalError. -/
theorem c3_amended (r : MessageRouter) (m : String) (pv rid : JVal) (h : StreamingHandler)
    (hm : m ≠ "") (hid : rid ≠ JVal.null)
    (hs : dictGet r.streaming_handlers m = some h)
    (hnoterm : countTerminal (h (routedParams (reqFields m pv (some rid)))).items = 0)
    (hend : (h (routedParams (reqFields m pv (some rid)))).ending = none) :
    countResp (route_message r (.decoded (.obj (reqFields m pv (some rid))))) = 0 := by
  rw [route_message_request r m pv rid hm hid, if_pos (by simp [dictHas, hs]),
    countResp_handle_streaming r m _ (some rid) h hs, hnoterm, hend]
  rfl

/-- Witness for the amended C3 at a concrete empty streaming handler. -/
theorem c3_amended_witness :
    countResp (route_message (MessageRouter.mk []
        [("s", fun _ => { items := [], ending := none })])
      (.decoded (.obj (reqFields "s" (.obj []) (some (.num 2)))))) = 0 :=
  c3_amended (MessageRouter.mk []
      [("s", fun _ => { items := [], ending := none })])
    "s" (.obj []) (.num 2) (fun _ => { items := [], ending := none })
    (by decide) (fun h => JVal.noConfusion h) rfl rfl rfl

/-! ### Chat handler lemmas -/

/-- Whether a trace entry is a yield of the generator (as opposed to a notifier
call). -/
def isYieldItem : SendItem → Bool
  | .yielded _ => true
  | .notify _ _ => false

theorem consumeEvent_items_filter (cid : String) (now : Int) (acc : StreamAcc)
    (e : SseEvent) :
    (consumeEvent cid now acc e).items.filter isYieldItem
      = acc.items.filter isYieldItem := by
  cases e <;> simp [consumeEvent, isYieldItem, List.filter_append]

theorem foldl_consumeEvent_items_filter (cid : String) (now : Int)
    (events : List SseEvent) (acc : StreamAcc) :
    ((events.foldl (consumeEvent cid now) acc).items.filter isYieldItem)
      = acc.items.filter isYieldItem := by
  induction events generalizing acc with
  | nil => rfl
  | cons e rest ih => rw [List.foldl_cons, ih, consumeEvent_items_filter]

/-- The event loop makes notifier calls only: it yields nothing. -/
theorem consumeEvents_no_yield (cid : String) (now : Int) (events : List SseEvent) :
    (consumeEvents cid now events).items.filter isYieldItem = [] :=
  foldl_consumeEvent_items_filter cid now events _

/-! ### Claim C6 -/

/-- C6 (confirmed): whenever handle_send passes both entry guards (so it marks
the session active), the state it hands back stores the session under the
resolved conversation id with its active flag false — on normal completion, on
cancellation, and on failure alike. -/
theorem c6_active_reset (st : ChatHandlerState) (msgParam : Option String)
    (freshId : String) (upstream : UpstreamRun) (now : Int)
    (hmsg : pyStrip (msgParam.getD "") ≠ "") (hsdk : st.sdk_available = true) :
    ∃ s, dictGet (handle_send st msgParam freshId upstream now).2.2.sessions
        (resolvedCid st freshId) = some s ∧ s.is_active = false := by
  cases hend : upstream.ending <;>
    simp only [handle_send, if_neg hmsg, hsdk, Bool.not_true, Bool.false_eq_true,
      if_neg (by simp : ¬ (False : Prop)), if_false, hend] <;>
    exact ⟨_, dictGet_dictInsert_self _ _ _, rfl⟩

/-- Witness for C6 at a concrete run that completes normally. -/
theorem c6_active_reset_witness :
    pyStrip ((some "hi" : Option String).getD "") ≠ "" ∧
    (ChatHandlerState.mk [] none true).sdk_available = true ∧
    ∃ s, dictGet (handle_send (ChatHandlerState.mk [] none true) (some "hi") "conv-1"
        (UpstreamRun.mk [] .completed) 0).2.2.sessions
        (resolvedCid (ChatHandlerState.mk [] none true) "conv-1") = some s ∧
      s.is_active = false :=
  ⟨by decide, rfl,
    c6_active_reset (ChatHandlerState.mk [] none true) (some "hi") "conv-1"
      (UpstreamRun.mk [] .completed) 0 (by decide) rfl⟩

/-! ### Claim C7 -/

/-- C7 (confirmed): when the cancellation signal arrives while consuming
upstream output, handle_send yields exactly one terminal chunk: a success
result (a result key, not an error key) with status cancelled and cost 0; the
generator completes normally; and the stored history gains only the user turn —
no assistant turn is appended for the interrupted generation. -/
theorem c7_cancelled (st : ChatHandlerState) (msgParam : Option String)
    (freshId : String) (events : List SseEvent) (now : Int)
    (hmsg : pyStrip (msgParam.getD "") ≠ "") (hsdk : st.sdk_available = true) :
    (handle_send st msgParam freshId (UpstreamRun.mk events .cancelled) now).1.filter
        isYieldItem
      = [.yielded (sendResultChunk (resolvedCid st freshId) "cancelled" 0 now)] ∧
    (handle_send st msgParam freshId (UpstreamRun.mk events .cancelled) now).2.1
      = .completed ∧
    (∃ s, dictGet
        (handle_send st msgParam freshId (UpstreamRun.mk events .cancelled) now).2.2.sessions
        (resolvedCid st freshId) = some s ∧
      s.messages = (match dictGet st.sessions (resolvedCid st freshId) with
          | some s0 => s0.messages
          | none => []) ++ [⟨"user", pyStrip (msgParam.getD "")⟩]) := by
  refine ⟨?_, ?_, ?_⟩
  · simp only [handle_send, if_neg hmsg, hsdk, Bool.not_true, Bool.false_eq_true,
      if_neg (by simp : ¬ (False : Prop)), if_false, List.filter_append,
      consumeEvents_no_yield]
    rfl
  · simp only [handle_send, if_neg hmsg, hsdk, Bool.not_true, Bool.false_eq_true,
      if_neg (by simp : ¬ (False : Prop)), if_false]
  · simp only [handle_send, if_neg hmsg, hsdk, Bool.not_true, Bool.false_eq_true,
      if_neg (by simp : ¬ (False : Prop)), if_false]
    refine ⟨_, dictGet_dictInsert_self _ _ _, ?_⟩
    cases dictGet st.sessions (resolvedCid st freshId) <;> rfl

/-- Witness for C7: cancellation after two text deltas; the single yield is the
cancelled result with cost 0 and the stored history is just the user turn. -/
theorem c7_cancelled_witness :
    pyStrip ((some "hello" : Option String).getD "") ≠ "" ∧
    (handle_send (ChatHandlerState.mk [] none true) (some "hello") "c9"
        (UpstreamRun.mk [.content_block_delta "a", .content_block_delta "b"] .cancelled)
        5).1.filter isYieldItem
      = [.yielded (sendResultChunk
          (resolvedCid (ChatHandlerState.mk [] none true) "c9") "cancelled" 0 5)] :=
  ⟨by decide,
    (c7_cancelled (ChatHandlerState.mk [] none true) (some "hello") "c9"
      [.content_block_delta "a", .content_block_delta "b"] 5 (by decide) rfl).1⟩

/-! ### Claim C8 -/

/-- C8 (confirmed): a chat.send whose message is empty after trimming raises the
guard ValueError before any state transition — handle_send returns the state it
was given, creates no session, appends no turn and emits nothing — and routing
such a request through the router produces exactly the InvalidParams error
reply carrying the request id. -/
theorem c8_empty_message (st : ChatHandlerState) (msgParam : Option String)
    (freshId : String) (upstream : UpstreamRun) (now : Int) (rid : ℚ)
    (hmsg : pyStrip (msgParam.getD "") = "") :
    handle_send st msgParam freshId upstream now
      = ([], .valueError "Message cannot be empty", st) ∧
    route_message (MessageRouter.mk []
        [("chat.send", chatSendHandler st freshId upstream now)])
      (.decoded (.obj (reqFields "chat.send"
        (.obj (match msgParam with
          | some s => [("message", JVal.str s)]
          | none => []))
        (some (.num rid)))))
      = [.resp (create_json_rpc_error INVALID_PARAMS "Message cannot be empty"
          (some (.num rid)) none)] := by
  constructor
  · simp [handle_send, hmsg]
  · rw [route_message_request _ "chat.send" _ (.num rid) (by decide)
      (fun h => JVal.noConfusion h)]
    rw [if_pos (by rfl)]
    cases msgParam with
    | none =>
      have h0 : pyStrip "" = "" := hmsg
      simp [handle_streaming, dictGet, chatSendHandler, chatSendRun, handle_send, h0,
        routedParams, reqFields, getMessageParam, exnResponse]
    | some s =>
      have h0 : pyStrip s = "" := hmsg
      simp [handle_streaming, dictGet, chatSendHandler, chatSendRun, handle_send, h0,
        routedParams, reqFields, getMessageParam, exnResponse]

/-- Witness for C8 at the concrete whitespace message. -/
theorem c8_empty_message_witness :
    pyStrip ((some "   " : Option String).getD "") = "" ∧
    handle_send (ChatHandlerState.mk [] none true) (some "   ") "f"
        (UpstreamRun.mk [] .completed) 0
      = ([], .valueError "Message cannot be empty", ChatHandlerState.mk [] none true) :=
  ⟨by decide,
    (c8_empty_message (ChatHandlerState.mk [] none true) (some "   ") "f"
      (UpstreamRun.mk [] .completed) 0 4 (by decide)).1⟩

/-! ### Filter lemmas for the eviction sweep -/

theorem dictGet_eq_none_of_not_mem {α : Type} (l : List (String × α)) (k : String)
    (h : k ∉ l.map Prod.fst) : dictGet l k = none := by
  induction l with
  | nil => rfl
  | cons q rest ih =>
    obtain ⟨k₀, v₀⟩ := q
    simp only [List.map_cons, List.mem_cons] at h
    push_neg at h
    simp only [dictGet]
    rw [if_neg (fun he => h.1 he.symm), ih h.2]

theorem dictGet_filter {α : Type} (p : String × α → Bool) (l : List (String × α))
    (hnd : (l.map Prod.fst).Nodup) (k : String) (v : α) :
    dictGet (l.filter p) k = some v ↔ dictGet l k = some v ∧ p (k, v) = true := by
  induction l with
  | nil => simp [dictGet]
  | cons q rest ih =>
    obtain ⟨k₀, v₀⟩ := q
    simp only [List.map_cons, List.nodup_cons] at hnd
    obtain ⟨hk₀, hnd'⟩ := hnd
    by_cases hkk : k₀ = k
    · subst hkk
      by_cases hp : p (k₀, v₀) = true
      · simp only [List.filter_cons, hp, if_true, dictGet, if_pos rfl]
        constructor
        · intro h
          cases h
          exact ⟨rfl, hp⟩
        · intro h
          exact h.1
      · simp only [List.filter_cons, hp, if_neg, Bool.false_eq_true, if_false,
          dictGet, if_pos rfl]
        rw [dictGet_eq_none_of_not_mem (rest.filter p) k₀
          (fun hm => hk₀ (((List.filter_sublist rest).map Prod.fst).subset hm))]
        constructor
        · intro h
          exact absurd h (by simp)
        · rintro ⟨h1, h2⟩
          cases h1
          exact absurd h2 (by simp [hp])
    · simp only [List.filter_cons, dictGet]
      by_cases hp : p (k₀, v₀) = true
      · simp only [hp, if_true, dictGet, if_neg hkk]
        exact ih hnd'
      · simp only [hp, Bool.false_eq_true, if_false, if_neg hkk]
        exact ih hnd'

/-! ### Claim C9 -/

/-- C9 is refuted on the return value by this concrete run: the state holds one
inactive session older than the threshold; the sweep removes it (the new store
is empty), yet the call returns None rather than the eviction count 1 the claim
demands (the Python function has no return statement). -/
theorem c9_counterexample :
    (cleanup_old_sessions
        (ChatHandlerState.mk [("old", ChatSession.mk "old" [] false 0)] none false)
        10000 1).1.sessions = [] ∧
    (cleanup_old_sessions
        (ChatHandlerState.mk [("old", ChatSession.mk "old" [] false 0)] none false)
        10000 1).2 = none :=
  ⟨rfl, rfl⟩

/-- C9 (amended): the sweep removes exactly those sessions whose age strictly
exceeds the threshold and whose active flag is false — a session is retained
after the sweep iff it was stored before and is young enough or active — but it
returns nothing: the eviction count is only logged, never returned. -/
theorem c9_amended (st : ChatHandlerState) (now D : Int)
    (hnd : (st.sessions.map Prod.fst).Nodup) :
    (∀ cid s, dictGet (cleanup_old_sessions st now D).1.sessions cid = some s ↔
      (dictGet st.sessions cid = some s ∧
        (now - s.created_at ≤ D * 3600 ∨ s.is_active = true))) ∧
    (cleanup_old_sessions st now D).2 = none := by
  refine ⟨?_, rfl⟩
  intro cid s
  have hmain := dictGet_filter
    (fun p => !(decide (p.2.created_at < now - D * 3600) && !p.2.is_active))
    st.sessions hnd cid s
  have hiff : ((!(decide (s.created_at < now - D * 3600) && !s.is_active)) = true)
      ↔ (now - s.created_at ≤ D * 3600 ∨ s.is_active = true) := by
    by_cases ha : s.is_active
    · simp [ha]
    · simp [ha]
      omega
  simp only [cleanup_old_sessions]
  rw [hmain, hiff]

/-- Witness for the amended C9: a store with an old inactive, a recent
inactive, and an old active session; the characterisation is applied to the old
inactive one (which the sweep removes). -/
theorem c9_amended_witness :
    ((ChatHandlerState.mk
        [("a", ChatSession.mk "a" [] false 0), ("b", ChatSession.mk "b" [] false 9000),
         ("c", ChatSession.mk "c" [] true 0)] none false).sessions.map Prod.fst).Nodup ∧
    (dictGet (cleanup_old_sessions (ChatHandlerState.mk
        [("a", ChatSession.mk "a" [] false 0), ("b", ChatSession.mk "b" [] false 9000),
         ("c", ChatSession.mk "c" [] true 0)] none false) 10000 1).1.sessions "a"
        = some (ChatSession.mk "a" [] false 0) ↔
      (dictGet (ChatHandlerState.mk
        [("a", ChatSession.mk "a" [] false 0), ("b", ChatSession.mk "b" [] false 9000),
         ("c", ChatSession.mk "c" [] true 0)] none false).sessions "a"
          = some (ChatSession.mk "a" [] false 0) ∧
        ((10000 : Int) - (ChatSession.mk "a" [] false 0).created_at ≤ 1 * 3600 ∨
          (ChatSession.mk "a" [] false 0).is_active = true))) :=
  ⟨by decide,
    (c9_amended (ChatHandlerState.mk
        [("a", ChatSession.mk "a" [] false 0), ("b", ChatSession.mk "b" [] false 9000),
         ("c", ChatSession.mk "c" [] true 0)] none false) 10000 1 (by decide)).1
      "a" (ChatSession.mk "a" [] false 0)⟩

/-! ### Claim C10 -/

/-- C10 (confirmed over well-formed states, where the tracked id is never the
empty string — true of every state the handler can reach): handle_cancel
reports not-cancelled with a None id iff no conversation id is tracked;
otherwise it reports cancelled with the tracked id even when no session with
that id exists; its only state change is clearing the active flag of the
tracked session when that session exists; and it never clears the tracked id. -/
theorem c10_handle_cancel (st : ChatHandlerState)
    (hwf : st.current_conversation_id ≠ some "") :
    ((handle_cancel st).1 = ⟨false, none⟩ ↔ st.current_conversation_id = none) ∧
    (∀ cid, st.current_conversation_id = some cid →
      (handle_cancel st).1 = ⟨true, some cid⟩) ∧
    ((handle_cancel st).2.current_conversation_id = st.current_conversation_id) ∧
    ((handle_cancel st).2.sdk_available = st.sdk_available) ∧
    (∀ cid s, dictGet (handle_cancel st).2.sessions cid = some s ↔
      ∃ s₀, dictGet st.sessions cid = some s₀ ∧
        s = (if st.current_conversation_id = some cid then { s₀ with is_active := false }
             else s₀)) := by
  cases hcur : st.current_conversation_id with
  | none =>
    refine ⟨by simp [handle_cancel, hcur], by simp [hcur], by simp [handle_cancel, hcur],
      by simp [handle_cancel, hcur], ?_⟩
    intro cid s
    simp [handle_cancel, hcur]
  | some cid₀ =>
    have hne : cid₀ ≠ "" := fun h => hwf (by rw [hcur, h])
    refine ⟨?_, ?_, ?_, ?_, ?_⟩
    · simp [handle_cancel, hcur, hne]
    · intro cid hc
      obtain rfl : cid₀ = cid := Option.some.inj hc
      simp [handle_cancel, hcur, hne]
    · simp [handle_cancel, hcur, hne]
    · simp [handle_cancel, hcur, hne]
    · intro cid s
      have hsess : (handle_cancel st).2.sessions
          = (match dictGet st.sessions cid₀ with
             | some s₀ => dictInsert st.sessions cid₀ { s₀ with is_active := false }
             | none => st.sessions) := by
        simp [handle_cancel, hcur, hne]
      rw [hsess]
      by_cases hc : cid₀ = cid
      · subst hc
        cases hg : dictGet st.sessions cid₀ with
        | none => simp [hg]
        | some s₀ =>
          rw [dictGet_dictInsert_self]
          simp [hg, eq_comm]
      · have hns : ¬ (some cid₀ = some cid) := fun h => hc (Option.some.inj h)
        cases hg : dictGet st.sessions cid₀ with
        | none => simp [hns]
        | some s₀ =>
          rw [dictGet_dictInsert_ne st.sessions cid₀ cid _ hc]
          simp [hns]

/-- Witness for C10 at a concrete state tracking conversation id c. -/
theorem c10_handle_cancel_witness :
    ((ChatHandlerState.mk [("c", ChatSession.mk "c" [] true 0)] (some "c")
        true).current_conversation_id ≠ some "") ∧
    (handle_cancel (ChatHandlerState.mk [("c", ChatSession.mk "c" [] true 0)] (some "c")
        true)).1 = ⟨true, some "c"⟩ :=
  ⟨by decide,
    (c10_handle_cancel (ChatHandlerState.mk [("c", ChatSession.mk "c" [] true 0)]
      (some "c") true) (by decide)).2.1 "c" rfl⟩

/-! ### Well-formedness of reachable handler states

The hypothesis of the C10 theorem — the tracked conversation id is never the
empty string — holds of every state the handler can reach: it holds of the
constructor state and is preserved by handle_send (uuid4 ids are non-empty) and
by handle_cancel. -/

/-- The state built by the ChatHandler constructor: empty session store, no
tracked conversation. -/
def initialChatState (sdk : Bool) : ChatHandlerState :=
  { sessions := [], current_conversation_id := none, sdk_available := sdk }

theorem initialChatState_wf (sdk : Bool) :
    (initialChatState sdk).current_conversation_id ≠ some "" := by
  simp [initialChatState]

theorem resolvedCid_ne_empty (st : ChatHandlerState) (freshId : String)
    (hfresh : freshId ≠ "") : resolvedCid st freshId ≠ "" := by
  unfold resolvedCid
  cases st.current_conversation_id with
  | none => exact hfresh
  | some c =>
    by_cases hc : c = "" <;> simp [hc, hfresh]

theorem handle_send_preserves_wf (st : ChatHandlerState) (msgParam : Option String)
    (freshId : String) (upstream : UpstreamRun) (now : Int)
    (hfresh : freshId ≠ "") (hwf : st.current_conversation_id ≠ some "") :
    (handle_send st msgParam freshId upstream now).2.2.current_conversation_id
      ≠ some "" := by
  by_cases h1 : pyStrip (msgParam.getD "") = ""
  · simpa [handle_send, h1] using hwf
  · by_cases h2 : st.sdk_available
    · cases hend : upstream.ending <;>
        simp [handle_send, h1, h2, hend, resolvedCid_ne_empty st freshId hfresh]
    · simpa [handle_send, h1, h2] using hwf

theorem handle_cancel_preserves_wf (st : ChatHandlerState)
    (hwf : st.current_conversation_id ≠ some "") :
    (handle_cancel st).2.current_conversation_id ≠ some "" := by
  cases hcur : st.current_conversation_id with
  | none => simp [handle_cancel, hcur]
  | some c =>
    by_cases hc : c = ""
    · exact absurd (hcur.trans (by rw [hc])) hwf
    · rw [hcur] at hwf
      simp [handle_cancel, hcur, hc]

end RefServer
